import Mathlib

/-!
Verification development for the vibecast mpv controller
(`src/player/mpv.rs`).  The Rust source is shallowly embedded: pure
fragments become Lean functions, the stateful controller becomes explicit
state passing over a `Controller` record, results of the external mpv
process are passed in as explicit parameters, and the IPC read loop is
modelled as a function over the sequence of read outcomes delivered by
the transport.
-/

namespace Vibecast

/-- JSON values as used by the controller (`serde_json::Value`).  Objects
are association lists; numbers are rationals (the claims never depend on
float representation of protocol data). -/
inductive JValue where
  | null
  | str (s : String)
  | num (q : ℚ)
  | obj (m : List (String × JValue))
  | other
deriving Repr

/-- Model of `Value::as_str` from serde_json: some for strings, none otherwise. -/
def JValue.asStr : JValue → Option String
  | .str s => some s
  | _ => none

/-- Model of `serde_json::Map::get` on the association-list model of a JSON object. -/
def jLookup : List (String × JValue) → String → Option JValue
  | [], _ => none
  | (k, v) :: rest, key => if k = key then some v else jLookup rest key

/-- The `MpvResponse` struct (mpv.rs lines 31-41): a parsed protocol line.
All fields are `serde(default)` in the source, so a parsed line always has
all four fields. -/
structure MpvResponse where
  request_id : Nat
  error : String
  data : JValue
  event : Option String
deriving Repr

/-- One outcome of `timeout(read_timeout, reader.read_line(..))` as seen by
the read loop of `send_command_with_timeout` (mpv.rs lines 321-347):
either a delivered line (carried as its `serde_json::from_str::<MpvResponse>`
parse result, `none` when parsing fails), a zero-length read (stream
closed), or a read error.  The expiry of the per-read timeout is the
absence of any further delivery and is modelled by the end of the event
list in `readLoop` (and by fuel exhaustion never happening in
`readLoopFuel`, which models a transport that keeps delivering). -/
inductive ReadEvent where
  | line (p : Option MpvResponse)
  | closed
  | readErr (e : String)
deriving Repr

/-- The possible results of `send_command_with_timeout`'s read loop. -/
inductive CallResult where
  | ok (data : JValue)
  | cmdError (msg : String)
  | transportClosed
  | readError (e : String)
  | timeout
deriving Repr

/-- The read loop of `send_command_with_timeout` (mpv.rs lines 321-347),
run against a finite sequence of read outcomes; once the sequence is
exhausted no further line arrives within the read timeout, so the next
`timeout(..)` call expires and the loop fails with the timeout error.
Branch order follows the source: zero-length read, parsed line
(event-tagged lines skipped first, then the request-id match, then the
error-status check), unparsable or unrelated lines skipped, read error,
timeout. -/
def readLoop (rid : Nat) : List ReadEvent → CallResult
  | [] => .timeout
  | .closed :: _ => .transportClosed
  | .readErr e :: _ => .readError e
  | .line none :: rest => readLoop rid rest
  | .line (some r) :: rest =>
    if r.event.isSome then
      readLoop rid rest
    else if r.request_id = rid then
      if r.error ≠ "success" ∧ r.error ≠ "" then .cmdError r.error
      else .ok r.data
    else
      readLoop rid rest

/-- Number of `timeout(read_timeout, read_line)` waits the loop performs on
a given finite delivery sequence (the final timed-out wait included). -/
def readLoopSteps (rid : Nat) : List ReadEvent → Nat
  | [] => 1
  | .closed :: _ => 1
  | .readErr _ :: _ => 1
  | .line none :: rest => 1 + readLoopSteps rid rest
  | .line (some r) :: rest =>
    if r.event.isSome then
      1 + readLoopSteps rid rest
    else if r.request_id = rid then
      1
    else
      1 + readLoopSteps rid rest

/-- The same read loop run against an infinite delivery stream: the
transport delivers `s 0, s 1, ...`, each within the per-read timeout
window so that no `timeout(..)` wait ever expires.  `fuel` bounds how many
reads we observe: `none` means the loop is still running after `fuel`
reads. -/
def readLoopFuel (rid : Nat) (s : Nat → ReadEvent) : Nat → Option CallResult
  | 0 => none
  | fuel + 1 =>
    match s 0 with
    | .closed => some .transportClosed
    | .readErr e => some (.readError e)
    | .line none => readLoopFuel rid (fun k => s (k + 1)) fuel
    | .line (some r) =>
      if r.event.isSome then
        readLoopFuel rid (fun k => s (k + 1)) fuel
      else if r.request_id = rid then
        if r.error ≠ "success" ∧ r.error ≠ "" then some (.cmdError r.error)
        else some (.ok r.data)
      else
        readLoopFuel rid (fun k => s (k + 1)) fuel

/-- A read event that the loop discards without completing the call: an
unparsable line, an event-tagged line, or a line whose `request_id` is not
the pending one. -/
def skippable (rid : Nat) : ReadEvent → Bool
  | .line none => true
  | .line (some r) => r.event.isSome || !(r.request_id == rid)
  | _ => false

/-- An event line (with the pending id, even) as delivered by an
adversarial transport in an endless stream. -/
def evLine : ReadEvent :=
  .line (some { request_id := 1, error := "", data := .null,
                event := some "property-change" })

/-- Helper for `str::split_once`: does `sep` occur at the head of the list? -/
def headMatches : List Char → List Char → Bool
  | [], _ => true
  | _ :: _, [] => false
  | p :: ps, c :: cs => p == c && headMatches ps cs

/-- Model of `str::split_once` on character lists: split at the first occurrence of
`sep`, returning the parts before and after it. -/
def splitOnceChars (sep : List Char) : List Char → Option (List Char × List Char)
  | [] => if headMatches sep [] then some ([], []) else none
  | c :: cs =>
    if headMatches sep (c :: cs) then some ([], List.drop sep.length (c :: cs))
    else
      match splitOnceChars sep cs with
      | some (a, b) => some (c :: a, b)
      | none => none

/-- Rust `str::split_once`: the delimiter used by the controller is ASCII,
so the byte-level search of the source coincides with this character-level
one. -/
def splitOnce (s sep : String) : Option (String × String) :=
  match splitOnceChars sep.data s.data with
  | some (a, b) => some (String.mk a, String.mk b)
  | none => none

/-- The `PlaybackState` record (mpv.rs lines 43-50); `volume: u8` is
modelled as a `Nat`, with u8 overflow treated explicitly where the source
performs unchecked arithmetic on it. -/
structure PlaybackState where
  playing : Bool
  paused : Bool
  volume : Nat
  title : Option String
  artist : Option String
deriving Repr

/-- Model of `PlaybackState::default` (mpv.rs lines 52-62). -/
def PlaybackState.default : PlaybackState :=
  { playing := false, paused := false, volume := 80, title := none, artist := none }

/-- The `MpvController` struct (mpv.rs lines 75-85): the transport handles
(`child`, `reader`, `writer` are `Option`s in the source) are modelled by
their presence, the socket path carries no claim-relevant information and
is omitted. -/
structure Controller where
  child : Bool
  reader : Bool
  writer : Bool
  request_id : Nat
  state : PlaybackState
deriving Repr

/-- Model of `MpvController::new` (mpv.rs lines 88-107). -/
def Controller.new : Controller :=
  { child := false, reader := false, writer := false, request_id := 1,
    state := PlaybackState.default }

/-- Model of `MpvController::stop` (mpv.rs lines 247-287): clears reader and writer,
takes and kills the child, resets `playing` and `paused`; every fallible
step has its error discarded, so the method always returns `Ok(())`. -/
def Controller.stop (c : Controller) : Controller × Except String Unit :=
  ({ c with
      reader := false
      writer := false
      child := false
      state := { c.state with playing := false, paused := false } }, .ok ())

/-- The environment's answer to one `send_command` call: either the data
mpv returns, or any failure of serialization, write, or the read loop. -/
abbrev CmdEnv := Except String JValue

/-- Model of `MpvController::send_command` / `send_command_with_timeout` at the
controller level (mpv.rs lines 289-318): errors with "Not connected to
mpv" when the writer or reader handle is absent; otherwise allocates the
next request id (`fetch_add` on the atomic counter) and yields whatever
the transport interaction produces, abstracted as `env`. -/
def Controller.send_command (c : Controller) (env : CmdEnv) :
    Controller × Except String JValue :=
  if c.writer = false then (c, .error "Not connected to mpv")
  else if c.reader = false then (c, .error "Not connected to mpv")
  else ({ c with request_id := c.request_id + 1 }, env)

/-- Outcome of the spawn-and-connect sequence inside `play`. -/
inductive PlayOutcome where
  | spawnErr (e : String)
  | socketTimeout
  | connectErr (e : String)
  | connected
deriving Repr

/-- Model of `MpvController::play` (mpv.rs lines 121-168): always stops first; on
spawn failure the spawn error is surfaced; if the socket never appears
(`connect_unix`, lines 170-186) the child is taken and killed and the
call fails; if connecting to the socket fails `stop` runs again and the
error is surfaced; on success the transport handles are installed and the
state becomes `playing := true, paused := false` (volume preserved). -/
def Controller.play (c : Controller) (o : PlayOutcome) : Controller × Except String Unit :=
  let c1 := c.stop.1
  match o with
  | .spawnErr e => (c1, .error e)
  | .socketTimeout => ({ c1 with child := false }, .error "mpv socket not created")
  | .connectErr e => ((Controller.stop { c1 with child := true }).1, .error e)
  | .connected =>
      ({ c1 with
          child := true
          reader := true
          writer := true
          state := { c1.state with playing := true, paused := false } }, .ok ())

/-- The `["cycle", "pause"]` command tokens sent by `toggle_pause`. -/
def cyclePauseCmd : List JValue := [.str "cycle", .str "pause"]

/-- The `["set_property", "volume", v]` command tokens sent by
`set_volume`. -/
def setVolumeCmd (v : Nat) : List JValue :=
  [.str "set_property", .str "volume", .num (v : ℚ)]

/-- Model of `MpvController::toggle_pause` (mpv.rs lines 350-369).  The third
component records the commands handed to `send_command` during the call.
Not playing: immediate `Ok(())`, nothing sent.  Otherwise the pause-cycle
command is sent; on success `paused` is flipped, on failure the error is
only logged and the state is left untouched — both branches return
`Ok(())`. -/
def Controller.toggle_pause (c : Controller) (env : CmdEnv) :
    Controller × Except String Unit × List (List JValue) :=
  if c.state.playing = false then (c, .ok (), [])
  else
    match c.send_command env with
    | (c1, .ok _) =>
        ({ c1 with state := { c1.state with paused := !c1.state.paused } },
         .ok (), [cyclePauseCmd])
    | (c1, .error _) => (c1, .ok (), [cyclePauseCmd])

/-- Model of `MpvController::set_volume` (mpv.rs lines 371-394): clamps with
`volume.min(100)`; not playing updates only the local state; playing sends
the volume command and updates the local state in the success branch and
in the failure branch alike, returning `Ok(())` either way. -/
def Controller.set_volume (c : Controller) (v : Nat) (env : CmdEnv) :
    Controller × Except String Unit × List (List JValue) :=
  let volume := min v 100
  if c.state.playing = false then
    ({ c with state := { c.state with volume := volume } }, .ok (), [])
  else
    match c.send_command env with
    | (c1, .ok _) =>
        ({ c1 with state := { c1.state with volume := volume } },
         .ok (), [setVolumeCmd volume])
    | (c1, .error _) =>
        ({ c1 with state := { c1.state with volume := volume } },
         .ok (), [setVolumeCmd volume])

/-- Model of `MpvController::volume_up` (mpv.rs lines 396-399): the unchecked u8
addition `self.state.volume + 5` wraps modulo 256 in release builds, then
`.min(100)` clamps, and the result is delegated to `set_volume`. -/
def Controller.volume_up (c : Controller) (env : CmdEnv) :
    Controller × Except String Unit × List (List JValue) :=
  c.set_volume (min ((c.state.volume + 5) % 256) 100) env

/-- Model of `MpvController::volume_down` (mpv.rs lines 401-404):
`saturating_sub(5)` is truncated `Nat` subtraction; delegates to
`set_volume`. -/
def Controller.volume_down (c : Controller) (env : CmdEnv) :
    Controller × Except String Unit × List (List JValue) :=
  c.set_volume (c.state.volume - 5) env

/-- The fallback title-like field of `get_metadata` (mpv.rs lines
436-440): `map.get("icy-title").or_else(|| map.get("title")).and_then(as_str)`. -/
def fallbackTitle (m : List (String × JValue)) : Option String :=
  (jLookup m "icy-title" <|> jLookup m "title").bind JValue.asStr

/-- The fallback artist field of `get_metadata` (mpv.rs lines 442-445). -/
def fallbackArtist (m : List (String × JValue)) : Option String :=
  (jLookup m "artist").bind JValue.asStr

/-- Tail of the metadata fallback (mpv.rs lines 455-463): store the looked
up fields in the state and return them when at least one is present. -/
def metadataGeneric (c2 : Controller) (title artist : Option String) :
    Controller × Option (String × String) :=
  let c3 := { c2 with state := { c2.state with title := title, artist := artist } }
  if title.isSome || artist.isSome then
    (c3, some (artist.getD "", title.getD ""))
  else (c3, none)

/-- The metadata-map fallback of `get_metadata` (mpv.rs lines 430-464):
on an object response, look up the title-like and artist fields; a
title-like field that splits on " - " wins, otherwise the generic path
stores and returns the fields; a non-object or failed response yields
`None`. -/
def Controller.metadata_fallback (c : Controller) (env2 : CmdEnv) :
    Controller × Option (String × String) :=
  match c.send_command env2 with
  | (c2, .ok (.obj m)) =>
    let title := fallbackTitle m
    let artist := fallbackArtist m
    match title with
    | some icy =>
      match splitOnce icy " - " with
      | some (a, t) =>
          ({ c2 with state := { c2.state with artist := some a, title := some t } },
           some (a, t))
      | none => metadataGeneric c2 title artist
    | none => metadataGeneric c2 title artist
  | (c2, _) => (c2, none)

/-- Model of `MpvController::get_metadata` (mpv.rs lines 406-467).  `env1` is the
response to the `media-title` query, `env2` to the `metadata` query.  All
paths of the source return `Ok(..)`, so the `Result` wrapper is dropped
and only the optional (artist, title) pair is returned. -/
def Controller.get_metadata (c : Controller) (env1 env2 : CmdEnv) :
    Controller × Option (String × String) :=
  if c.reader = false ∨ c.writer = false then (c, none)
  else
    match c.send_command env1 with
    | (c1, .ok (.str title)) =>
      if title ≠ "" then
        match splitOnce title " - " with
        | some (a, t) =>
            ({ c1 with state := { c1.state with artist := some a, title := some t } },
             some (a, t))
        | none =>
            ({ c1 with state := { c1.state with title := some title } },
             some ("", title))
      else c1.metadata_fallback env2
    | (c1, _) => c1.metadata_fallback env2

/-- Rust `f32::clamp(lo, hi)` on the rational model: below `lo` gives
`lo`, above `hi` gives `hi`, otherwise the value itself. -/
def clampQ (x lo hi : ℚ) : ℚ :=
  if x < lo then lo else if x > hi then hi else x

/-- The synthetic audio-level fallback of `get_audio_stats` (mpv.rs lines
527-537).  The trigonometric primitives are abstracted as arbitrary
rational-valued functions `sinF`, `cosF` (on finite inputs the source's
`sin`/`cos` are finite, and the claims depend only on the final clamps, so
any valuation of the trig terms is covered); `.abs().powf(2.0)` is
`|·| ^ 2`; the float constants are carried exactly. -/
def syntheticLevels (sinF cosF : ℚ → ℚ) (t : ℚ) : ℚ × ℚ :=
  let base := sinF (t * 7.3) * 0.3 + cosF (t * 11.7) * 0.2 + 0.5
  let beat := |sinF (t * 2.5)| ^ 2 * 0.3
  let variation := sinF (t * 23.1) * 0.15
  let rms := -12 + base * 8 + beat * 6 + variation * 4
  let peak := rms + 2 + |sinF (t * 31.4)| * 3
  (clampQ rms (-18) (-3), clampQ peak (-15) 0)

/-- One public controller operation together with the environment's
behaviour during it.  `get_audio_stats` sends up to four polling commands
and never writes `PlaybackState` (mpv.rs lines 475-542); `k` abstracts how
many request ids it consumes. -/
inductive Op where
  | play (o : PlayOutcome)
  | stop
  | toggle_pause (env : CmdEnv)
  | set_volume (v : Nat) (env : CmdEnv)
  | volume_up (env : CmdEnv)
  | volume_down (env : CmdEnv)
  | get_metadata (env1 env2 : CmdEnv)
  | get_audio_stats (k : Nat)

/-- The controller reached after one public operation. -/
def Controller.step (c : Controller) : Op → Controller
  | .play o => (c.play o).1
  | .stop => c.stop.1
  | .toggle_pause env => (c.toggle_pause env).1
  | .set_volume v env => (c.set_volume v env).1
  | .volume_up env => (c.volume_up env).1
  | .volume_down env => (c.volume_down env).1
  | .get_metadata e1 e2 => (c.get_metadata e1 e2).1
  | .get_audio_stats k => { c with request_id := c.request_id + k }

/-- The controller reached after a sequence of public operations. -/
def Controller.run (c : Controller) (ops : List Op) : Controller :=
  ops.foldl Controller.step c

/-- No active session: no transport handles, not playing, not paused. -/
def Controller.idle (c : Controller) : Bool :=
  !c.child && !c.reader && !c.writer && !c.state.playing && !c.state.paused

/-- A `media-title` query outcome that makes `get_metadata` fall through to
the metadata-map query: any failure, any non-string value, or the empty
string (mpv.rs lines 416-428). -/
def titleFallsThrough : Except String JValue → Bool
  | .ok (.str t) => t == ""
  | .ok _ => true
  | .error _ => true

/-- The send path never touches `PlaybackState`. -/
theorem send_command_state (c : Controller) (env : CmdEnv) :
    (c.send_command env).1.state = c.state := by
  unfold Controller.send_command
  split
  · rfl
  · split <;> rfl

/-- The send path leaves state and transport handles unchanged. -/
theorem send_command_fields (c : Controller) (env : CmdEnv) :
    (c.send_command env).1.state = c.state ∧
    (c.send_command env).1.reader = c.reader ∧
    (c.send_command env).1.writer = c.writer ∧
    (c.send_command env).1.child = c.child := by
  unfold Controller.send_command
  split
  · exact ⟨rfl, rfl, rfl, rfl⟩
  · split <;> exact ⟨rfl, rfl, rfl, rfl⟩

/-- On a connected controller, sending allocates the next request id and yields the environment response. -/
theorem send_command_connected (c : Controller) (env : CmdEnv)
    (hw : c.writer = true) (hr : c.reader = true) :
    c.send_command env = ({ c with request_id := c.request_id + 1 }, env) := by
  unfold Controller.send_command
  rw [hw, hr]
  simp

/-- Every branch of `set_volume` stores the clamped volume. -/
theorem set_volume_volume (c : Controller) (v : Nat) (env : CmdEnv) :
    (c.set_volume v env).1.state.volume = min v 100 := by
  unfold Controller.set_volume
  split
  · rfl
  · split <;> rfl

/-- The result and command trace of `set_volume`: always `Ok(())`, no command when not playing, the clamped volume-set command when playing. -/
theorem set_volume_result_trace (c : Controller) (v : Nat) (env : CmdEnv) :
    (c.set_volume v env).2.1 = Except.ok () ∧
    (c.state.playing = false → (c.set_volume v env).2.2 = []) ∧
    (c.state.playing = true → (c.set_volume v env).2.2 = [setVolumeCmd (min v 100)]) := by
  unfold Controller.set_volume
  split
  · rename_i hp
    exact ⟨rfl, fun _ => rfl, fun ht => absurd ht (by simp [hp])⟩
  · rename_i hp
    split <;>
      exact ⟨rfl, fun hf => absurd hf hp, fun _ => rfl⟩

/-- The state after `set_volume` is the old state with the clamped volume. -/
theorem set_volume_state (c : Controller) (v : Nat) (env : CmdEnv) :
    (c.set_volume v env).1.state = { c.state with volume := min v 100 } := by
  unfold Controller.set_volume
  split
  · rfl
  · split
    all_goals
      rename_i c1 r heq
      have hs := send_command_state c env
      rw [heq] at hs
      simp only at hs
      simp [hs]

/-- When not playing, `set_volume` only updates the local state and sends nothing. -/
theorem set_volume_not_playing (c : Controller) (v : Nat) (env : CmdEnv)
    (h : c.state.playing = false) :
    c.set_volume v env
      = ({ c with state := { c.state with volume := min v 100 } },
         Except.ok (), []) := by
  unfold Controller.set_volume
  simp [h]

/-- The metadata fallback never touches `playing`, `paused` or `volume`. -/
theorem metadata_fallback_state (c : Controller) (env2 : CmdEnv) :
    (c.metadata_fallback env2).1.state.playing = c.state.playing ∧
    (c.metadata_fallback env2).1.state.paused = c.state.paused ∧
    (c.metadata_fallback env2).1.state.volume = c.state.volume := by
  have hs := send_command_state c env2
  unfold Controller.metadata_fallback
  rcases hsc : c.send_command env2 with ⟨c2, r⟩
  rw [hsc] at hs
  simp only at hs
  rcases r with e | jv
  · simp [hs]
  · rcases jv with _ | s | q | m | _
    · simp [hs]
    · simp [hs]
    · simp [hs]
    · simp only [metadataGeneric]
      rcases ht : fallbackTitle m with _ | icy
      · simp only [ht]
        split <;> simp [hs]
      · simp only [ht]
        rcases hsp : splitOnce icy " - " with _ | ⟨a, t⟩
        · simp only [hsp]
          split <;> simp [hs]
        · simp only [hsp]
          simp [hs]
    · simp [hs]

/-- The full metadata query never touches `playing`, `paused` or `volume`. -/
theorem get_metadata_state (c : Controller) (e1 e2 : CmdEnv) :
    (c.get_metadata e1 e2).1.state.playing = c.state.playing ∧
    (c.get_metadata e1 e2).1.state.paused = c.state.paused ∧
    (c.get_metadata e1 e2).1.state.volume = c.state.volume := by
  unfold Controller.get_metadata
  split
  · exact ⟨rfl, rfl, rfl⟩
  · have hs := send_command_state c e1
    rcases hsc : c.send_command e1 with ⟨c1, r⟩
    rw [hsc] at hs
    simp only at hs
    have hf := metadata_fallback_state c1 e2
    rcases r with e | jv
    · simp [hs, hf.1, hf.2.1, hf.2.2]
    · rcases jv with _ | title | q | m | _
      · simp [hs, hf.1, hf.2.1, hf.2.2]
      · simp only []
        split
        · rcases hsp : splitOnce title " - " with _ | ⟨a, t⟩
          · simp [hsp, hs]
          · simp [hsp, hs]
        · simp [hs, hf.1, hf.2.1, hf.2.2]
      · simp [hs, hf.1, hf.2.1, hf.2.2]
      · simp [hs, hf.1, hf.2.1, hf.2.2]
      · simp [hs, hf.1, hf.2.1, hf.2.2]

/-- When not playing, `toggle_pause` is a no-op success that sends nothing. -/
theorem toggle_pause_not_playing (c : Controller) (env : CmdEnv)
    (h : c.state.playing = false) :
    c.toggle_pause env = (c, Except.ok (), []) := by
  unfold Controller.toggle_pause
  simp [h]

/-- When playing, `toggle_pause` sends the pause-cycle command and returns success; `paused` flips exactly when the command succeeded. -/
theorem toggle_pause_playing (c : Controller) (env : CmdEnv)
    (h : c.state.playing = true) :
    (c.toggle_pause env).2.1 = Except.ok () ∧
    (c.toggle_pause env).2.2 = [cyclePauseCmd] ∧
    (∀ d, (c.send_command env).2 = Except.ok d →
        (c.toggle_pause env).1.state = { c.state with paused := !c.state.paused }) ∧
    (∀ e, (c.send_command env).2 = Except.error e →
        (c.toggle_pause env).1.state = c.state) := by
  have hs := send_command_state c env
  unfold Controller.toggle_pause
  simp only [h]
  rcases hsc : c.send_command env with ⟨c1, r⟩
  rw [hsc] at hs
  simp only at hs
  rcases r with e | d
  · simp [hs, h]
  · simp [hs, h]

/-- Stopping an idle controller changes nothing and returns success. -/
theorem stop_idle_noop (c : Controller) (h : c.idle = true) :
    c.stop = (c, Except.ok ()) := by
  rcases c with ⟨child, reader, writer, rid, st⟩
  rcases st with ⟨playing, paused, vol, title, artist⟩
  simp only [Controller.idle, Bool.and_eq_true, Bool.not_eq_true'] at h
  obtain ⟨⟨⟨⟨h1, h2⟩, h3⟩, h4⟩, h5⟩ := h
  subst h1; subst h2; subst h3; subst h4; subst h5
  rfl

/-- Any property preserved by every single operation is preserved by every operation sequence. -/
theorem run_preserves (P : Controller → Prop)
    (hstep : ∀ c op, P c → P (c.step op)) :
    ∀ (ops : List Op) (c : Controller), P c → P (c.run ops) := by
  intro ops
  induction ops with
  | nil => intro c h; exact h
  | cons op rest ih =>
      intro c h
      exact ih (c.step op) (hstep c op h)

/-- Booleans that are not false are true. -/
theorem playing_true_of_not_false (c : Controller)
    (hp : ¬ c.state.playing = false) : c.state.playing = true := by
  cases hb : c.state.playing
  · exact absurd hb hp
  · rfl

/-- Each public operation preserves the invariant that `paused` implies `playing`. -/
theorem step_paused_implies_playing (c : Controller) (op : Op)
    (h : c.state.paused = true → c.state.playing = true) :
    (c.step op).state.paused = true → (c.step op).state.playing = true := by
  cases op with
  | play o => cases o <;> simp [Controller.step, Controller.play, Controller.stop]
  | stop => simp [Controller.step, Controller.stop]
  | toggle_pause env =>
      by_cases hp : c.state.playing = false
      · simpa [Controller.step, toggle_pause_not_playing c env hp] using h
      · have hp2 := playing_true_of_not_false c hp
        have ht := toggle_pause_playing c env hp2
        rcases hr : (c.send_command env).2 with e | d
        · have hst := ht.2.2.2 e hr
          simpa [Controller.step, hst] using h
        · have hst := ht.2.2.1 d hr
          simp [Controller.step, hst, hp2]
  | set_volume v env =>
      have hst := set_volume_state c v env
      simpa [Controller.step, hst] using h
  | volume_up env =>
      have hst := set_volume_state c (min ((c.state.volume + 5) % 256) 100) env
      simpa [Controller.step, Controller.volume_up, hst] using h
  | volume_down env =>
      have hst := set_volume_state c (c.state.volume - 5) env
      simpa [Controller.step, Controller.volume_down, hst] using h
  | get_metadata e1 e2 =>
      have hg := get_metadata_state c e1 e2
      intro hpa
      simp only [Controller.step] at hpa ⊢
      rw [hg.1]
      apply h
      rw [← hg.2.1]
      exact hpa
  | get_audio_stats k => simpa [Controller.step] using h

/-- Each public operation preserves the invariant that the volume is at most 100. -/
theorem step_volume_le (c : Controller) (op : Op)
    (h : c.state.volume ≤ 100) :
    (c.step op).state.volume ≤ 100 := by
  cases op with
  | play o => cases o <;> simpa [Controller.step, Controller.play, Controller.stop] using h
  | stop => simpa [Controller.step, Controller.stop] using h
  | toggle_pause env =>
      by_cases hp : c.state.playing = false
      · simpa [Controller.step, toggle_pause_not_playing c env hp] using h
      · have hp2 := playing_true_of_not_false c hp
        have ht := toggle_pause_playing c env hp2
        rcases hr : (c.send_command env).2 with e | d
        · have hst := ht.2.2.2 e hr
          simpa [Controller.step, hst] using h
        · have hst := ht.2.2.1 d hr
          simpa [Controller.step, hst] using h
  | set_volume v env =>
      have hst := set_volume_state c v env
      simp [Controller.step, hst]
  | volume_up env =>
      have hst := set_volume_state c (min ((c.state.volume + 5) % 256) 100) env
      simp [Controller.step, Controller.volume_up, hst]
  | volume_down env =>
      have hst := set_volume_state c (c.state.volume - 5) env
      simp [Controller.step, Controller.volume_down, hst]
  | get_metadata e1 e2 =>
      have hg := get_metadata_state c e1 e2
      simp only [Controller.step]
      rw [hg.2.2]
      exact h
  | get_audio_stats k => simpa [Controller.step] using h

/-- The read loop performs at most one read per delivered event plus the final timed-out read. -/
theorem readLoopSteps_le (rid : Nat) : ∀ evs : List ReadEvent,
    readLoopSteps rid evs ≤ evs.length + 1 := by
  intro evs
  induction evs with
  | nil => simp [readLoopSteps]
  | cons e rest ih =>
      cases e with
      | closed => simp only [readLoopSteps, List.length_cons]; omega
      | readErr er => simp only [readLoopSteps, List.length_cons]; omega
      | line p =>
          cases p with
          | none => simp only [readLoopSteps, List.length_cons]; omega
          | some r =>
              simp only [readLoopSteps, List.length_cons]
              split
              · omega
              · split
                · omega
                · omega

/-- A finite delivery consisting only of discarded lines ends in a timeout failure. -/
theorem readLoop_skippable_timeout (rid : Nat) : ∀ evs : List ReadEvent,
    (∀ e ∈ evs, skippable rid e = true) → readLoop rid evs = CallResult.timeout := by
  intro evs
  induction evs with
  | nil => intro _; rfl
  | cons e rest ih =>
      intro hall
      have he := hall e (List.mem_cons_self e rest)
      have hr : ∀ x ∈ rest, skippable rid x = true :=
        fun x hx => hall x (List.mem_cons_of_mem e hx)
      cases e with
      | closed => simp [skippable] at he
      | readErr er => simp [skippable] at he
      | line p =>
          cases p with
          | none => simp only [readLoop]; exact ih hr
          | some r =>
              simp only [readLoop]
              simp only [skippable] at he
              by_cases hev : r.event.isSome = true
              · rw [if_pos hev]
                exact ih hr
              · rw [if_neg hev]
                have hne : ¬ r.request_id = rid := by
                  rcases (Bool.or_eq_true _ _).mp he with h1 | h2
                  · exact absurd h1 hev
                  · simpa using h2
                rw [if_neg hne]
                exact ih hr

/-- Against a transport that endlessly delivers event lines, the read loop is still running after any number of reads. -/
theorem readLoopFuel_const_evLine :
    ∀ (n : Nat) (s : Nat → ReadEvent), (∀ k, s k = evLine) →
      readLoopFuel 1 s n = none := by
  intro n
  induction n with
  | zero => intro s h; rfl
  | succ n ih =>
      intro s h
      have h0 := h 0
      simp [readLoopFuel, h0, evLine]
      exact ih _ (fun k => h (k + 1))

/-- Clamping lands inside the band whenever the band is nonempty. -/
theorem clampQ_bounds (x lo hi : ℚ) (h : lo ≤ hi) :
    lo ≤ clampQ x lo hi ∧ clampQ x lo hi ≤ hi := by
  unfold clampQ
  split
  · exact ⟨le_refl lo, h⟩
  · split
    · exact ⟨h, le_refl hi⟩
    · rename_i h1 h2
      exact ⟨le_of_not_lt h1, le_of_not_lt h2⟩

/-- A nonempty media title containing the separator is split into the pair before/after its first occurrence. -/
theorem get_metadata_split (c : Controller) (env2 : CmdEnv) (t a b : String)
    (hr : c.reader = true) (hw : c.writer = true)
    (hsp : splitOnce t " - " = some (a, b)) :
    (c.get_metadata (Except.ok (JValue.str t)) env2).2 = some (a, b) := by
  have hne : t ≠ "" := by
    intro he
    rw [he] at hsp
    rw [show splitOnce "" " - " = none from rfl] at hsp
    exact Option.noConfusion hsp
  unfold Controller.get_metadata
  rw [if_neg (by simp [hr, hw])]
  rw [send_command_connected c _ hw hr]
  simp [hne, hsp]

/-- A nonempty media title without the separator yields an empty artist and the whole title. -/
theorem get_metadata_nosplit (c : Controller) (env2 : CmdEnv) (t : String)
    (hr : c.reader = true) (hw : c.writer = true) (hne : t ≠ "")
    (hsp : splitOnce t " - " = none) :
    (c.get_metadata (Except.ok (JValue.str t)) env2).2 = some ("", t) := by
  unfold Controller.get_metadata
  rw [if_neg (by simp [hr, hw])]
  rw [send_command_connected c _ hw hr]
  simp [hne, hsp]

/-- A failed, non-string or empty media-title response sends `get_metadata` to the metadata-map fallback. -/
theorem get_metadata_fallsThrough (c : Controller) (env1 env2 : CmdEnv)
    (hr : c.reader = true) (hw : c.writer = true)
    (ht : titleFallsThrough env1 = true) :
    c.get_metadata env1 env2
      = (c.send_command env1).1.metadata_fallback env2 := by
  unfold Controller.get_metadata
  rw [if_neg (by simp [hr, hw])]
  rw [send_command_connected c _ hw hr]
  rcases env1 with e | jv
  · rfl
  · rcases jv with _ | s | q | m | _
    · rfl
    · have hs : s = "" := by simpa [titleFallsThrough] using ht
      subst hs
      simp
    · rfl
    · rfl
    · rfl

/-- The fallback title-like field is split by the same separator rule. -/
theorem metadata_fallback_split (c : Controller) (m : List (String × JValue))
    (tt a b : String) (hr : c.reader = true) (hw : c.writer = true)
    (ht : fallbackTitle m = some tt) (hsp : splitOnce tt " - " = some (a, b)) :
    (c.metadata_fallback (Except.ok (JValue.obj m))).2 = some (a, b) := by
  unfold Controller.metadata_fallback
  rw [send_command_connected c _ hw hr]
  simp [ht, hsp]

/-- A fallback title-like field without the separator is returned whole, with the separate artist field. -/
theorem metadata_fallback_nosplit (c : Controller) (m : List (String × JValue))
    (tt : String) (hr : c.reader = true) (hw : c.writer = true)
    (ht : fallbackTitle m = some tt) (hsp : splitOnce tt " - " = none) :
    (c.metadata_fallback (Except.ok (JValue.obj m))).2
      = some ((fallbackArtist m).getD "", tt) := by
  unfold Controller.metadata_fallback metadataGeneric
  rw [send_command_connected c _ hw hr]
  simp [ht, hsp]

/-- C1, counterexample: against the concrete transport that endlessly delivers event lines within each per-read timeout window, the protocol call of `send_command_with_timeout` never completes, for any number of reads — the claim that every call with a finite timeout terminates even under an unbounded stream of event lines is false on the code, because the timeout is re-armed for every read. -/
theorem C1_counterexample_endless_events :
    ¬ ∃ n : Nat, (readLoopFuel 1 (fun _ => evLine) n).isSome = true := by
  rintro ⟨n, hn⟩
  rw [readLoopFuel_const_evLine n (fun _ => evLine) (fun k => rfl)] at hn
  simp at hn

/-- C1, amended: the timeout of `send_command_with_timeout` bounds each individual read, not the whole call; the call performs at most one read per delivered line plus a final timed-out read, and a finite delivery consisting only of event, unparsable or unrelated lines ends the call with the timeout error rather than waiting forever. -/
theorem C1_call_bounded_per_read (rid : Nat) (evs : List ReadEvent) :
    readLoopSteps rid evs ≤ evs.length + 1 ∧
    ((∀ e ∈ evs, skippable rid e = true) → readLoop rid evs = CallResult.timeout) :=
  ⟨readLoopSteps_le rid evs, readLoop_skippable_timeout rid evs⟩

/-- Witness for C1 at a one-event delivery. -/
theorem C1_witness :
    readLoopSteps 1 [evLine] ≤ 2 ∧ readLoop 1 [evLine] = CallResult.timeout := by
  refine ⟨(C1_call_bounded_per_read 1 [evLine]).1, (C1_call_bounded_per_read 1 [evLine]).2 ?_⟩
  decide

/-- C2: the invariant that `paused` implies `playing` holds on `PlaybackState` after construction and after every sequence of public controller operations, for every outcome of the underlying commands. -/
theorem C2_paused_implies_playing (ops : List Op) :
    (Controller.new.run ops).state.paused = true →
    (Controller.new.run ops).state.playing = true :=
  run_preserves (fun c => c.state.paused = true → c.state.playing = true)
    step_paused_implies_playing ops Controller.new (by decide)

/-- Witness for C2 at a play-then-toggle sequence that actually pauses. -/
theorem C2_witness :
    (Controller.new.run [Op.play PlayOutcome.connected,
        Op.toggle_pause (Except.ok JValue.null)]).state.paused = true ∧
    (Controller.new.run [Op.play PlayOutcome.connected,
        Op.toggle_pause (Except.ok JValue.null)]).state.playing = true :=
  ⟨by rfl, C2_paused_implies_playing _ (by rfl)⟩

/-- C3: in the protocol read loop, an event-tagged line never completes the pending call; unparsable or unrelated-id lines are discarded and the loop continues; a zero-length read fails the call with the transport-closed error; a parsed line with the pending id and a non-empty, non-success error status fails the call with a command-level error; a parsed line with the pending id and success status completes the call with its data value. -/
theorem C3_read_loop_dispatch (rid : Nat) (rest : List ReadEvent) :
    (∀ r : MpvResponse, r.event.isSome = true →
        readLoop rid (ReadEvent.line (some r) :: rest) = readLoop rid rest) ∧
    (readLoop rid (ReadEvent.line none :: rest) = readLoop rid rest) ∧
    (∀ r : MpvResponse, r.request_id ≠ rid →
        readLoop rid (ReadEvent.line (some r) :: rest) = readLoop rid rest) ∧
    (readLoop rid (ReadEvent.closed :: rest) = CallResult.transportClosed) ∧
    (∀ r : MpvResponse, r.event = none → r.request_id = rid →
        r.error ≠ "success" → r.error ≠ "" →
        readLoop rid (ReadEvent.line (some r) :: rest) = CallResult.cmdError r.error) ∧
    (∀ r : MpvResponse, r.event = none → r.request_id = rid → r.error = "success" →
        readLoop rid (ReadEvent.line (some r) :: rest) = CallResult.ok r.data) := by
  refine ⟨?_, ?_, ?_, ?_, ?_, ?_⟩
  · intro r hev
    simp [readLoop, hev]
  · rfl
  · intro r hid
    by_cases hev : r.event.isSome = true
    · simp [readLoop, hev]
    · simp [readLoop, hev, hid]
  · rfl
  · intro r hev hid he1 he2
    simp [readLoop, hev, hid, he1, he2]
  · intro r hev hid he
    simp [readLoop, hev, hid, he]

/-- Witness for C3 at concrete protocol lines. -/
theorem C3_witness :
    readLoop 1 [ReadEvent.line (some ⟨1, "oops", JValue.null, none⟩)]
      = CallResult.cmdError "oops" ∧
    readLoop 1 [ReadEvent.line (some ⟨1, "success", JValue.str "d", none⟩)]
      = CallResult.ok (JValue.str "d") ∧
    readLoop 1 (ReadEvent.line (some ⟨1, "x", JValue.null, some "ev"⟩)
        :: [ReadEvent.closed]) = CallResult.transportClosed := by
  refine ⟨(C3_read_loop_dispatch 1 []).2.2.2.2.1 ⟨1, "oops", JValue.null, none⟩ rfl rfl
      (by decide) (by decide),
    (C3_read_loop_dispatch 1 []).2.2.2.2.2 ⟨1, "success", JValue.str "d", none⟩ rfl rfl rfl,
    ?_⟩
  have h1 := (C3_read_loop_dispatch 1 [ReadEvent.closed]).1 ⟨1, "x", JValue.null, some "ev"⟩ rfl
  rw [h1]
  exact (C3_read_loop_dispatch 1 []).2.2.2.1

/-- C4: after `stop` returns, no live transport handle remains (reader, writer and child are all cleared) and the playback state has `playing` and `paused` false, after every sequence of public operations; `stop` always returns success, and on a controller with no active session it is a no-op success. -/
theorem C4_stop_teardown_idempotent :
    (∀ ops : List Op,
        (Controller.new.run ops).stop.1.child = false ∧
        (Controller.new.run ops).stop.1.reader = false ∧
        (Controller.new.run ops).stop.1.writer = false ∧
        (Controller.new.run ops).stop.1.state.playing = false ∧
        (Controller.new.run ops).stop.1.state.paused = false ∧
        (Controller.new.run ops).stop.2 = Except.ok ()) ∧
    (∀ c : Controller, c.idle = true → c.stop = (c, Except.ok ())) :=
  ⟨fun _ => ⟨rfl, rfl, rfl, rfl, rfl, rfl⟩, stop_idle_noop⟩

/-- Witness for C4 at the freshly constructed controller. -/
theorem C4_witness :
    Controller.new.idle = true ∧
    Controller.new.stop = (Controller.new, Except.ok ()) :=
  ⟨by rfl, C4_stop_teardown_idempotent.2 Controller.new (by rfl)⟩

/-- C5: `toggle_pause` returns success without sending any command when not playing; when playing it issues the pause-cycle command and flips `paused` only if the command succeeds; on command failure it still returns success and leaves `PlaybackState` unchanged. -/
theorem C5_toggle_pause_error_handling (c : Controller) (env : CmdEnv) :
    (c.state.playing = false → c.toggle_pause env = (c, Except.ok (), [])) ∧
    (c.state.playing = true →
        (c.toggle_pause env).2.1 = Except.ok () ∧
        (c.toggle_pause env).2.2 = [cyclePauseCmd] ∧
        (∀ d, (c.send_command env).2 = Except.ok d →
            (c.toggle_pause env).1.state
              = { c.state with paused := !c.state.paused }) ∧
        (∀ e, (c.send_command env).2 = Except.error e →
            (c.toggle_pause env).1.state = c.state)) :=
  ⟨toggle_pause_not_playing c env, fun h => toggle_pause_playing c env h⟩

/-- Witness for C5: a no-op toggle on an idle controller and a failed toggle on a playing controller. -/
theorem C5_witness :
    Controller.new.toggle_pause (Except.error "boom")
      = (Controller.new, Except.ok (), []) ∧
    ((Controller.new.play PlayOutcome.connected).1.toggle_pause
        (Except.error "boom")).1.state
      = (Controller.new.play PlayOutcome.connected).1.state := by
  constructor
  · exact (C5_toggle_pause_error_handling Controller.new (Except.error "boom")).1 rfl
  · exact ((C5_toggle_pause_error_handling (Controller.new.play PlayOutcome.connected).1
      (Except.error "boom")).2 rfl).2.2.2 "boom" rfl

/-- C6: `set_volume` clamps its argument to at most 100 (the argument is never negative); when not playing it updates only the local volume, sends nothing and returns success; when playing it issues the volume-set command and updates the local volume whether the command succeeds or fails, returning success in both cases. -/
theorem C6_set_volume_clamp_best_effort (c : Controller) (v : Nat) (env : CmdEnv) :
    (c.set_volume v env).1.state.volume = min v 100 ∧
    min v 100 ≤ 100 ∧
    (c.set_volume v env).2.1 = Except.ok () ∧
    (c.state.playing = false →
        c.set_volume v env
          = ({ c with state := { c.state with volume := min v 100 } },
             Except.ok (), [])) ∧
    (c.state.playing = true →
        (c.set_volume v env).2.2 = [setVolumeCmd (min v 100)]) :=
  ⟨set_volume_volume c v env, min_le_right v 100,
   (set_volume_result_trace c v env).1,
   set_volume_not_playing c v env,
   fun h => (set_volume_result_trace c v env).2.2 h⟩

/-- Witness for C6 on a playing controller with a failing command and on an idle controller. -/
theorem C6_witness :
    ((Controller.new.play PlayOutcome.connected).1.set_volume 150
        (Except.error "boom")).1.state.volume = 100 ∧
    Controller.new.set_volume 30 (Except.error "x")
      = ({ Controller.new with
            state := { Controller.new.state with volume := 30 } },
         Except.ok (), []) ∧
    ((Controller.new.play PlayOutcome.connected).1.set_volume 150
        (Except.error "boom")).2.2 = [setVolumeCmd 100] :=
  ⟨(C6_set_volume_clamp_best_effort _ 150 _).1,
   (C6_set_volume_clamp_best_effort Controller.new 30 (Except.error "x")).2.2.2.1 rfl,
   (C6_set_volume_clamp_best_effort _ 150 _).2.2.2.2 rfl⟩

/-- C7: a media title containing the separator is split at its first occurrence into the artist before it and the title after it; a nonempty title without the separator yields an empty artist and the whole string as title; the fallback metadata map prefers the icy-title field over the title field, carries a separate artist field, and its title-like field obeys the same splitting rule. -/
theorem C7_metadata_title_split (c : Controller)
    (hr : c.reader = true) (hw : c.writer = true) :
    (∀ env2 : CmdEnv,
        (c.get_metadata (Except.ok (JValue.str "Daft Punk - One More Time")) env2).2
          = some ("Daft Punk", "One More Time")) ∧
    (∀ env2 : CmdEnv,
        (c.get_metadata (Except.ok (JValue.str "Ambient Drift")) env2).2
          = some ("", "Ambient Drift")) ∧
    (∀ (env2 : CmdEnv) (t a b : String), splitOnce t " - " = some (a, b) →
        (c.get_metadata (Except.ok (JValue.str t)) env2).2 = some (a, b)) ∧
    (∀ (env2 : CmdEnv) (t : String), t ≠ "" → splitOnce t " - " = none →
        (c.get_metadata (Except.ok (JValue.str t)) env2).2 = some ("", t)) ∧
    (∀ (m : List (String × JValue)) (s : String),
        jLookup m "icy-title" = some (JValue.str s) → fallbackTitle m = some s) ∧
    (∀ m : List (String × JValue), jLookup m "icy-title" = none →
        fallbackTitle m = (jLookup m "title").bind JValue.asStr) ∧
    (∀ (env1 : CmdEnv) (m : List (String × JValue)) (tt a b : String),
        titleFallsThrough env1 = true → fallbackTitle m = some tt →
        splitOnce tt " - " = some (a, b) →
        (c.get_metadata env1 (Except.ok (JValue.obj m))).2 = some (a, b)) ∧
    (∀ (env1 : CmdEnv) (m : List (String × JValue)) (tt : String),
        titleFallsThrough env1 = true → fallbackTitle m = some tt →
        splitOnce tt " - " = none →
        (c.get_metadata env1 (Except.ok (JValue.obj m))).2
          = some ((fallbackArtist m).getD "", tt)) := by
  have hfields : ∀ env1 : CmdEnv,
      (c.send_command env1).1.reader = true ∧ (c.send_command env1).1.writer = true :=
    fun env1 => ⟨(send_command_fields c env1).2.1.trans hr,
      (send_command_fields c env1).2.2.1.trans hw⟩
  refine ⟨?_, ?_, ?_, ?_, ?_, ?_, ?_, ?_⟩
  · intro env2
    exact get_metadata_split c env2 _ _ _ hr hw rfl
  · intro env2
    exact get_metadata_nosplit c env2 _ hr hw (by decide) rfl
  · intro env2 t a b hsp
    exact get_metadata_split c env2 t a b hr hw hsp
  · intro env2 t hne hsp
    exact get_metadata_nosplit c env2 t hr hw hne hsp
  · intro m s h
    simp [fallbackTitle, h, JValue.asStr]
  · intro m h
    simp [fallbackTitle, h]
  · intro env1 m tt a b hft ht hsp
    rw [get_metadata_fallsThrough c env1 _ hr hw hft]
    exact metadata_fallback_split _ m tt a b (hfields env1).1 (hfields env1).2 ht hsp
  · intro env1 m tt hft ht hsp
    rw [get_metadata_fallsThrough c env1 _ hr hw hft]
    exact metadata_fallback_nosplit _ m tt (hfields env1).1 (hfields env1).2 ht hsp

/-- Witness for C7 at the spec example titles and a concrete fallback map. -/
theorem C7_witness :
    ((Controller.new.play PlayOutcome.connected).1.get_metadata
        (Except.ok (JValue.str "Daft Punk - One More Time")) (Except.error "e")).2
      = some ("Daft Punk", "One More Time") ∧
    ((Controller.new.play PlayOutcome.connected).1.get_metadata
        (Except.ok (JValue.str "Ambient Drift")) (Except.error "e")).2
      = some ("", "Ambient Drift") ∧
    ((Controller.new.play PlayOutcome.connected).1.get_metadata (Except.error "e")
        (Except.ok (JValue.obj [("icy-title", JValue.str "A - B"),
          ("title", JValue.str "C")]))).2
      = some ("A", "B") := by
  refine ⟨(C7_metadata_title_split _ rfl rfl).1 _,
    (C7_metadata_title_split _ rfl rfl).2.1 _, ?_⟩
  exact (C7_metadata_title_split (Controller.new.play PlayOutcome.connected).1 rfl rfl).2.2.2.2.2.2.1
    (Except.error "e") [("icy-title", JValue.str "A - B"), ("title", JValue.str "C")]
    "A - B" "A" "B" rfl rfl rfl

/-- C8: the synthetic audio-level fallback is a deterministic function of the playback-time value, and for every time value and every valuation of the trigonometric terms the resulting pair lies in the clamped bands: RMS in the interval from -18 to -3 dB and peak in the interval from -15 to 0 dB. -/
theorem C8_synthetic_levels_bounds (sinF cosF : ℚ → ℚ) (t u : ℚ) :
    (t = u → syntheticLevels sinF cosF t = syntheticLevels sinF cosF u) ∧
    -18 ≤ (syntheticLevels sinF cosF t).1 ∧
    (syntheticLevels sinF cosF t).1 ≤ -3 ∧
    -15 ≤ (syntheticLevels sinF cosF t).2 ∧
    (syntheticLevels sinF cosF t).2 ≤ 0 := by
  refine ⟨fun h => by rw [h], ?_, ?_, ?_, ?_⟩
  · exact (clampQ_bounds _ _ _ (by norm_num)).1
  · exact (clampQ_bounds _ _ _ (by norm_num)).2
  · exact (clampQ_bounds _ _ _ (by norm_num)).1
  · exact (clampQ_bounds _ _ _ (by norm_num)).2

/-- Witness for C8 at a concrete time value and trig valuation. -/
theorem C8_witness :
    syntheticLevels (fun _ => 0) (fun _ => 0) 1
      = syntheticLevels (fun _ => 0) (fun _ => 0) 1 ∧
    (syntheticLevels (fun _ => 0) (fun _ => 0) 1).1 = -8 := by
  refine ⟨(C8_synthetic_levels_bounds (fun _ => 0) (fun _ => 0) 1 1).1 rfl, ?_⟩
  norm_num [syntheticLevels, clampQ]

/-- C9: starting from volume 80, `volume_up` followed by `volume_down` returns the volume to 80; both use a delta of 5, clamp at the boundaries 0 (by saturating subtraction) and 100 (by min), and both delegate to `set_volume`. -/
theorem C9_volume_up_down_roundtrip (c : Controller) (e1 e2 : CmdEnv) :
    (c.state.volume = 80 →
        ((c.volume_up e1).1.volume_down e2).1.state.volume = 80) ∧
    (c.state.volume ≤ 100 →
        (c.volume_up e1).1.state.volume = min (c.state.volume + 5) 100 ∧
        (c.volume_down e1).1.state.volume = c.state.volume - 5) ∧
    c.volume_up e1 = c.set_volume (min ((c.state.volume + 5) % 256) 100) e1 ∧
    c.volume_down e1 = c.set_volume (c.state.volume - 5) e1 := by
  refine ⟨?_, ?_, rfl, rfl⟩
  · intro h80
    have h1 : (c.volume_up e1).1.state.volume = 85 := by
      unfold Controller.volume_up
      rw [set_volume_volume, h80]
      decide
    unfold Controller.volume_down
    rw [set_volume_volume, h1]
    decide
  · intro hle
    constructor
    · unfold Controller.volume_up
      rw [set_volume_volume]
      have hm : (c.state.volume + 5) % 256 = c.state.volume + 5 :=
        Nat.mod_eq_of_lt (by omega)
      rw [hm, min_assoc, min_self]
    · unfold Controller.volume_down
      rw [set_volume_volume]
      exact min_eq_left (by omega)

/-- Witness for C9 at the freshly constructed controller, whose volume is 80. -/
theorem C9_witness :
    Controller.new.state.volume = 80 ∧
    ((Controller.new.volume_up (Except.error "x")).1.volume_down
        (Except.error "y")).1.state.volume = 80 :=
  ⟨rfl, (C9_volume_up_down_roundtrip Controller.new (Except.error "x") (Except.error "y")).1 rfl⟩

/-- C10: the volume is at most 100 after construction (default 80) and after every sequence of public operations, so the unchecked u8 addition of 5 inside `volume_up` stays at most 255 and never overflows. -/
theorem C10_volume_le_100_no_overflow (ops : List Op) :
    (Controller.new.run ops).state.volume ≤ 100 ∧
    (Controller.new.run ops).state.volume + 5 ≤ 255 := by
  have h := run_preserves (fun c => c.state.volume ≤ 100) step_volume_le ops
    Controller.new (by decide)
  exact ⟨h, by omega⟩

end Vibecast
